import Mathlib

/-!
Verification of the retrieval-augmented contract-compliance pipeline.

The development shallowly embeds the query-phase code of
`groq_only_rag.py` (source extraction in `ask_question`, the batch loop of
`main`, the build/save ordering of `build_or_load_faiss`) and the contract
loader of `codes/simple_rag_system.py`.  Components the repository consumes
through third-party libraries (the text splitter, the FAISS vector index
with its search, save and load) are modelled from the specification's
contracts, with doc comments marking each such model.
-/

namespace RAG

/-- Metadata attached to a LangChain `Document`: the `source` path and an
optional `page` number, as read by `ask_question` via `doc.metadata.get`. -/
structure DocMetadata where
  source : Option String
  page : Option Nat
deriving DecidableEq, Repr

/-- A LangChain `Document`: page content plus metadata. -/
structure Document where
  pageContent : String
  metadata : DocMetadata
deriving DecidableEq, Repr

/-- The final path component, embedding Python's `Path(source).name`
as used in `ask_question`: the characters after the last slash. -/
def pathName (s : String) : String :=
  String.mk ((s.toList.reverse.takeWhile (fun c => c ≠ '/')).reverse)

/-- The source label `ask_question` builds for one context document:
`Path(source).name`, with ` (page N)` appended when a page is present,
and `"unknown"` when the metadata has no source. -/
def sourceLabel (d : Document) : String :=
  let src := d.metadata.source.getD "unknown"
  let name := if src = "unknown" then "unknown" else pathName src
  match d.metadata.page with
  | some p => name ++ " (page " ++ toString p ++ ")"
  | none => name

/-- What `rag_chain.invoke` returns on success: the generated answer and
the retrieved context documents. -/
structure ChainResult where
  answer : String
  context : List Document
deriving DecidableEq, Repr

/-- The dict returned by `ask_question`. -/
structure QueryResult where
  question : String
  answer : String
  sources : List String
  context : List Document
deriving DecidableEq, Repr

/-- Shallow embedding of `ask_question` (groq_only_rag.py, lines 301-340).
The RAG chain is a function from the question to either a `ChainResult` or
a raised exception message.  On success the sources list is built by
appending one `sourceLabel` per context document; on any exception the
result carries an `Error: ...` answer, empty sources and empty context. -/
def ask_question (rag_chain : String → Except String ChainResult)
    (question : String) : QueryResult :=
  match rag_chain question with
  | Except.ok r =>
      { question := question
        answer := r.answer
        sources := r.context.map sourceLabel
        context := r.context }
  | Except.error e =>
      { question := question
        answer := "Error: " ++ e
        sources := []
        context := [] }

/-- Shallow embedding of the analysis loop of `main` (groq_only_rag.py,
lines 503-520): each question in the batch is passed to `ask_question`
independently. -/
def run_batch (rag_chain : String → Except String ChainResult)
    (questions : List String) : List QueryResult :=
  questions.map (ask_question rag_chain)

/-- A chain whose context holds two passages from the same file, used to
exhibit duplicate source labels. -/
def dupChain : String → Except String ChainResult :=
  fun _ => Except.ok
    { answer := "both clauses are present"
      context :=
        [ { pageContent := "clause one"
            metadata := { source := some "contracts/a.txt", page := none } }
        , { pageContent := "clause two"
            metadata := { source := some "contracts/a.txt", page := none } } ] }

/-- Chunk size constant from groq_only_rag.py line 42. -/
def CHUNK_SIZE : Nat := 800

/-- Chunk overlap constant from groq_only_rag.py line 43. -/
def CHUNK_OVERLAP : Nat := 120

/-- Retrieval depth constant from groq_only_rag.py line 44. -/
def TOP_K : Nat := 4

/-- Error raised by the chunker on invalid configuration. -/
inductive ChunkError where
  | ConfigurationError
deriving DecidableEq, Repr

/-- Modelled from the spec: the left-to-right splitting loop of the
Chunker (spec 4.1) — each chunk starts `chunkSize - overlap` characters
(`step`) after the previous chunk's start and extends up to `chunkSize`
characters, truncated at document end.  The repository delegates this to
`RecursiveCharacterTextSplitter`, whose code is not under src/; the
boundary-preference refinement is abstracted away since, per the spec, it
only ever shortens a chunk, never lengthens it.  The first argument is
fuel bounding the recursion; `splitText` supplies the text length. -/
def chunkListAux : Nat → Nat → Nat → List Char → List (List Char)
  | 0, _, _, _ => []
  | _ + 1, _, _, [] => []
  | fuel + 1, step, cs, c :: rest =>
      (c :: rest).take cs :: chunkListAux fuel step cs ((c :: rest).drop step)

/-- Modelled from the spec: `split(document, chunkSize, overlap)`
(spec 4.1).  `chunkSize` and `overlap` must be positive with
`overlap < chunkSize`, else the call fails with `ConfigurationError`;
otherwise the text is cut left to right into chunks of at most
`chunkSize` characters with stride `chunkSize - overlap`. -/
def splitText (chunkSize overlap : Nat) (text : String) :
    Except ChunkError (List String) :=
  if 0 < chunkSize ∧ 0 < overlap ∧ overlap < chunkSize then
    Except.ok
      ((chunkListAux text.length (chunkSize - overlap) chunkSize
        text.toList).map String.mk)
  else
    Except.error ChunkError.ConfigurationError

/-- An entry of the vector index: a passage vector together with the
passage's text and metadata (spec 3, `IndexEntry`). -/
structure IndexEntry where
  vector : List Int
  text : String
  metadata : DocMetadata
deriving DecidableEq, Repr

/-- The in-memory vector index: the ordered list of its entries. -/
structure VIndex where
  entries : List IndexEntry
deriving DecidableEq, Repr

/-- Modelled from the spec: the similarity score between a query vector
and an entry vector — a dot product, one of the "cosine similarity or
equivalent monotonic" measures the spec admits (spec 4.2), over integer
coordinates. -/
def dot : List Int → List Int → Int
  | a :: as, b :: bs => a * b + dot as bs
  | _, _ => 0

/-- Modelled from the spec: `search(queryVector, k)` of the Vector Index
(spec 4.2) — entries ranked by descending similarity, ties broken by
insertion order (a stable sort), truncated to the first `k`.  The
repository delegates search to FAISS, whose code is not under src/. -/
def searchIndex (idx : VIndex) (q : List Int) (k : Nat) : List IndexEntry :=
  (idx.entries.insertionSort
    (fun a b => dot q b.vector ≤ dot q a.vector)).take k

/-- The persisted index layout (spec 6): the entries together with an
embedder-dimension tag used for the load-time mismatch check. -/
structure SavedIndex where
  dimTag : Nat
  entries : List IndexEntry
deriving DecidableEq, Repr

/-- Load-time errors of the Vector Index (spec 4.2 and 7). -/
inductive LoadError where
  | IndexNotFoundError
  | DimensionMismatchError
deriving DecidableEq, Repr

/-- Modelled from the spec: `save(path)` (spec 4.2) — serializes the full
set of entries, tagged with the embedder dimension (spec 6). -/
def saveIndex (dim : Nat) (idx : VIndex) : SavedIndex :=
  { dimTag := dim, entries := idx.entries }

/-- Modelled from the spec: `load(path)` (spec 4.2) — fails with
`IndexNotFoundError` when nothing valid is persisted, and fails fast with
`DimensionMismatchError` when the stored dimension tag differs from the
current embedder's dimensionality; otherwise restores the entries. -/
def loadIndex (disk : Option SavedIndex) (embedderDim : Nat) :
    Except LoadError VIndex :=
  match disk with
  | none => Except.error LoadError.IndexNotFoundError
  | some s =>
      if s.dimTag = embedderDim then Except.ok { entries := s.entries }
      else Except.error LoadError.DimensionMismatchError

/-- Errors surfaced by `build_or_load_faiss`: an embedding failure during
a rebuild, or a load failure. -/
inductive BuildError where
  | EmbeddingError (msg : String)
  | LoadFailed (e : LoadError)
deriving DecidableEq, Repr

/-- Embedding every chunk in order, stopping at the first failure, as
`FAISS.from_documents` does before anything is saved: either all chunks
embed and become index entries, or the whole build fails. -/
def embedAll (embed : String → Except String (List Int)) :
    List Document → Except String (List IndexEntry)
  | [] => Except.ok []
  | d :: ds =>
      match embed d.pageContent with
      | Except.error e => Except.error e
      | Except.ok v =>
          match embedAll embed ds with
          | Except.error e => Except.error e
          | Except.ok es =>
              Except.ok ({ vector := v, text := d.pageContent,
                           metadata := d.metadata } :: es)

/-- Shallow embedding of `build_or_load_faiss` (groq_only_rag.py,
lines 191-224).  The second component is the on-disk state after the
call.  On `rebuild`, the index is built in memory first
(`FAISS.from_documents`) and only saved to disk (`save_local`) after
every chunk has embedded; an embedding exception propagates before the
save, leaving the disk untouched.  Otherwise the persisted index is
loaded against the current embedder dimension. -/
def build_or_load_faiss (embedderDim : Nat)
    (embed : String → Except String (List Int))
    (chunks : List Document) (rebuild : Bool) (disk : Option SavedIndex) :
    Except BuildError VIndex × Option SavedIndex :=
  if rebuild then
    match embedAll embed chunks with
    | Except.error e => (Except.error (BuildError.EmbeddingError e), disk)
    | Except.ok es =>
        (Except.ok { entries := es },
         some (saveIndex embedderDim { entries := es }))
  else
    match loadIndex disk embedderDim with
    | Except.error e => (Except.error (BuildError.LoadFailed e), disk)
    | Except.ok v => (Except.ok v, disk)

/-- Modelled from the spec: the Retriever (spec 4.3) over a possibly
stateful embedder `emb : σ → String → List Int × σ` — embeds the query,
delegates to `searchIndex`, and projects each entry to the caller-facing
`(text, metadata, score)` shape.  Returns the results and the embedder's
new state. -/
def retrieveStateful {σ : Type} (idx : VIndex)
    (emb : σ → String → List Int × σ) (s : σ) (q : String) (k : Nat) :
    List (String × DocMetadata × Int) × σ :=
  ((searchIndex idx (emb s q).1 k).map
    (fun en => (en.text, en.metadata, dot (emb s q).1 en.vector)),
   (emb s q).2)

/-- A deterministic embedder: the vector produced for a query does not
depend on the embedder's internal state (spec 4.3). -/
def DeterministicEmbedder {σ : Type} (emb : σ → String → List Int × σ) :
    Prop :=
  ∀ s t q, (emb s q).1 = (emb t q).1

/-- A concrete index entry used in witnesses. -/
def exEntryA : IndexEntry :=
  { vector := [1], text := "breach notification within 72 hours",
    metadata := { source := some "contracts/a.txt", page := none } }

/-- A second concrete index entry used in witnesses. -/
def exEntryB : IndexEntry :=
  { vector := [3], text := "payment terms",
    metadata := { source := some "contracts/b.txt", page := none } }

/-- A concrete two-entry index used in witnesses. -/
def exIndex : VIndex := { entries := [exEntryA, exEntryB] }

/-- A stateful but deterministic embedder used in witnesses: the returned
vector depends only on the query, while a call counter advances. -/
def countingEmbedder : Nat → String → List Int × Nat :=
  fun st q => ([(q.length : Int)], st + 1)

/-- An embedder that fails on the seventh chunk, used in witnesses. -/
def failingEmbed : String → Except String (List Int) :=
  fun s => if s = "c7" then Except.error "boom" else Except.ok [0]

/-- Ten one-passage chunks, the seventh of which `failingEmbed`
rejects. -/
def tenChunks : List Document :=
  ["c1", "c2", "c3", "c4", "c5", "c6", "c7", "c8", "c9", "c10"].map
    (fun s => { pageContent := s,
                metadata := { source := some "contracts/big.txt",
                              page := none } })

end RAG

namespace SimpleRAG

/-- One file of the contracts folder as the loader sees it: its name and
the outcome of reading it (content, or a raised I/O error message). -/
structure FileEntry where
  name : String
  content : Except String String
deriving Repr

/-- Shallow embedding of `load_contracts_simple`
(codes/simple_rag_system.py, lines 66-86).  The folder is `none` when it
does not exist, in which case the empty map is returned; otherwise each
`.txt` file is read inside a try/except, files whose read raises are
skipped, and the remaining files populate the contracts map in order. -/
def load_contracts_simple (folder : Option (List FileEntry)) :
    List (String × String) :=
  match folder with
  | none => []
  | some files =>
      files.filterMap (fun f =>
        match f.content with
        | Except.ok c => some (f.name, c)
        | Except.error _ => none)

end SimpleRAG

namespace RAG

/-- C1 counterexample: the claim says the `sources` field of the returned
`QueryResult` is a deduplicated set of source labels, but when two
retrieved passages come from the same file `ask_question` appends the
same label twice, so the returned list is not duplicate-free. -/
theorem sources_not_dedup :
    ¬ ((ask_question dupChain "Is the contract compliant?").sources.Nodup) := by
  decide

/-- C1 (amended): for every answered question, `sources` is the list of
source labels of exactly the passages supplied to the model, in order and
possibly with duplicates; hence every element is the label of a retrieved
passage, and the field depends only on the retrieved passages — never on
the model's free-text answer (any chain returning the same context yields
the same sources, whatever its answer). -/
theorem sources_from_context (chain : String → Except String ChainResult)
    (q : String) (r : ChainResult) (h : chain q = Except.ok r) :
    (ask_question chain q).sources = r.context.map sourceLabel ∧
    (∀ s ∈ (ask_question chain q).sources,
        ∃ d ∈ r.context, s = sourceLabel d) ∧
    (∀ (chain2 : String → Except String ChainResult) (r2 : ChainResult),
        chain2 q = Except.ok r2 → r2.context = r.context →
        (ask_question chain2 q).sources = (ask_question chain q).sources) := by
  refine ⟨?_, ?_, ?_⟩
  · simp [ask_question, h]
  · intro s hs
    simp only [ask_question, h] at hs
    rcases List.mem_map.mp hs with ⟨d, hd, hds⟩
    exact ⟨d, hd, hds.symm⟩
  · intro chain2 r2 h2 hctx
    simp [ask_question, h, h2, hctx]

/-- C1 witness: the amended theorem evaluated on the concrete chain whose
context holds two passages of `contracts/a.txt`. -/
theorem sources_from_context_w :
    (ask_question dupChain "Is the contract compliant?").sources =
      ["a.txt", "a.txt"] := by
  have h := (sources_from_context dupChain "Is the contract compliant?"
    { answer := "both clauses are present"
      context :=
        [ { pageContent := "clause one"
            metadata := { source := some "contracts/a.txt", page := none } }
        , { pageContent := "clause two"
            metadata := { source := some "contracts/a.txt", page := none } } ] }
    rfl).1
  rw [h]
  decide

/-- C2: in a batch, a question whose chain invocation raises yields an
error result with empty sources for that question's position only; every
other question still reports its own result, and the batch keeps one
result per question. -/
theorem batch_error_isolated (chain : String → Except String ChainResult)
    (qs : List String) (i j : Nat) (qi qj : String) (e : String)
    (r : ChainResult) (hqi : qs[i]? = some qi) (hqj : qs[j]? = some qj)
    (hei : chain qi = Except.error e) (hrj : chain qj = Except.ok r) :
    (run_batch chain qs)[i]? = some
      { question := qi, answer := "Error: " ++ e,
        sources := [], context := [] } ∧
    (run_batch chain qs)[j]? = some
      { question := qj, answer := r.answer,
        sources := r.context.map sourceLabel, context := r.context } ∧
    (run_batch chain qs).length = qs.length := by
  refine ⟨?_, ?_, ?_⟩
  · simp [run_batch, List.getElem?_map, hqi, ask_question, hei]
  · simp [run_batch, List.getElem?_map, hqj, ask_question, hrj]
  · simp [run_batch]

/-- C2 witness: a two-question batch in which the first question's
generation fails and the second succeeds. -/
theorem batch_error_isolated_w :
    (run_batch
      (fun q => if q = "bad" then Except.error "quota"
        else Except.ok { answer := "fine", context := [] })
      ["bad", "good"])[0]? = some
        { question := "bad", answer := "Error: quota",
          sources := [], context := [] } ∧
    (run_batch
      (fun q => if q = "bad" then Except.error "quota"
        else Except.ok { answer := "fine", context := [] })
      ["bad", "good"])[1]? = some
        { question := "good", answer := "fine",
          sources := [], context := [] } := by
  have h := batch_error_isolated
    (fun q => if q = "bad" then Except.error "quota"
      else Except.ok { answer := "fine", context := [] })
    ["bad", "good"] 0 1 "bad" "good" "quota"
    { answer := "fine", context := [] } rfl rfl rfl rfl
  exact ⟨h.1, h.2.1⟩

/-- C3: when `k` is at least the number of indexed entries, `search`
returns exactly all entries (a permutation of the index contents),
ordered by descending similarity score — it does not fail. -/
theorem search_returns_all (idx : VIndex) (q : List Int) (k : Nat)
    (h : idx.entries.length ≤ k) :
    (searchIndex idx q k).Perm idx.entries ∧
    (searchIndex idx q k).Pairwise
      (fun a b => dot q b.vector ≤ dot q a.vector) := by
  have hlen :
      (idx.entries.insertionSort
        (fun a b => dot q b.vector ≤ dot q a.vector)).length =
        idx.entries.length :=
    List.length_insertionSort _ _
  have htake : searchIndex idx q k =
      idx.entries.insertionSort
        (fun a b => dot q b.vector ≤ dot q a.vector) := by
    unfold searchIndex
    exact List.take_of_length_le (by rw [hlen]; exact h)
  constructor
  · rw [htake]
    exact List.perm_insertionSort _ _
  · rw [htake]
    haveI : IsTotal IndexEntry
        (fun a b => dot q b.vector ≤ dot q a.vector) :=
      ⟨fun a b => le_total _ _⟩
    haveI : IsTrans IndexEntry
        (fun a b => dot q b.vector ≤ dot q a.vector) :=
      ⟨fun _ _ _ hab hbc => le_trans hbc hab⟩
    exact List.sorted_insertionSort _ _

/-- C3 witness: searching the concrete two-entry index with `k = 5`. -/
theorem search_returns_all_w :
    (searchIndex exIndex [2] 5).Perm exIndex.entries ∧
    (searchIndex exIndex [2] 5).Pairwise
      (fun a b => dot [2] b.vector ≤ dot [2] a.vector) :=
  search_returns_all exIndex [2] 5 (by decide)

/-- C4: loading a persisted index whose stored dimension tag differs from
the current embedder's dimensionality fails fast with
`DimensionMismatchError`, both at the load operation and through
`build_or_load_faiss` in load mode. -/
theorem load_dim_mismatch (s : SavedIndex) (dim : Nat)
    (embed : String → Except String (List Int)) (chunks : List Document)
    (h : s.dimTag ≠ dim) :
    loadIndex (some s) dim = Except.error LoadError.DimensionMismatchError ∧
    (build_or_load_faiss dim embed chunks false (some s)).1 =
      Except.error (BuildError.LoadFailed LoadError.DimensionMismatchError) := by
  have hl : loadIndex (some s) dim =
      Except.error LoadError.DimensionMismatchError := by
    simp [loadIndex, h]
  exact ⟨hl, by simp [build_or_load_faiss, hl]⟩

/-- C4 witness: a 384-dimension saved index loaded by a 768-dimension
embedder. -/
theorem load_dim_mismatch_w :
    loadIndex (some { dimTag := 384, entries := [] }) 768 =
      Except.error LoadError.DimensionMismatchError :=
  (load_dim_mismatch { dimTag := 384, entries := [] } 768
    (fun _ => Except.ok []) [] (by decide)).1

/-- C5: the chunker accepts exactly positive `chunkSize` and `overlap`
with `overlap < chunkSize`, and fails with `ConfigurationError` whenever
`overlap ≥ chunkSize`. -/
theorem split_requires (cs ov : Nat) (t : String) :
    ((∃ chunks, splitText cs ov t = Except.ok chunks) ↔
      (0 < cs ∧ 0 < ov ∧ ov < cs)) ∧
    (cs ≤ ov →
      splitText cs ov t = Except.error ChunkError.ConfigurationError) := by
  constructor
  · constructor
    · rintro ⟨chunks, hc⟩
      by_contra hcond
      unfold splitText at hc
      rw [if_neg hcond] at hc
      simp at hc
    · intro hcond
      exact ⟨(chunkListAux t.length (cs - ov) cs t.toList).map String.mk,
        by unfold splitText; rw [if_pos hcond]⟩
  · intro hle
    have hn : ¬(0 < cs ∧ 0 < ov ∧ ov < cs) := by omega
    unfold splitText
    rw [if_neg hn]

/-- C5 witness: `overlap = chunkSize` is rejected, while the repository's
configured `CHUNK_SIZE` and `CHUNK_OVERLAP` are accepted. -/
theorem split_requires_w :
    splitText 100 100 "abc" = Except.error ChunkError.ConfigurationError ∧
    ∃ chunks, splitText CHUNK_SIZE CHUNK_OVERLAP "abc" = Except.ok chunks :=
  ⟨(split_requires 100 100 "abc").2 (by decide),
   (split_requires CHUNK_SIZE CHUNK_OVERLAP "abc").1.mpr (by decide)⟩

/-- If some chunk fails to embed, embedding the whole batch fails. -/
theorem embedAll_mem_error (embed : String → Except String (List Int))
    (chunks : List Document) (d : Document) (e : String) (hd : d ∈ chunks)
    (he : embed d.pageContent = Except.error e) :
    ∃ msg, embedAll embed chunks = Except.error msg := by
  induction chunks with
  | nil => cases hd
  | cons c cs ih =>
    rcases List.mem_cons.mp hd with rfl | hmem
    · exact ⟨e, by simp [embedAll, he]⟩
    · cases hc : embed c.pageContent with
      | error e2 => exact ⟨e2, by simp [embedAll, hc]⟩
      | ok v =>
        rcases ih hmem with ⟨msg, hmsg⟩
        exact ⟨msg, by simp [embedAll, hc, hmsg]⟩

/-- C6: if any chunk fails to embed during a rebuild, the on-disk index
is left exactly as it was (no partial index is written), and the build
surfaces an `EmbeddingError`. -/
theorem build_failure_preserves_disk (dim : Nat)
    (embed : String → Except String (List Int)) (chunks : List Document)
    (disk : Option SavedIndex) (d : Document) (e : String)
    (hd : d ∈ chunks) (he : embed d.pageContent = Except.error e) :
    (build_or_load_faiss dim embed chunks true disk).2 = disk ∧
    ∃ msg, (build_or_load_faiss dim embed chunks true disk).1 =
      Except.error (BuildError.EmbeddingError msg) := by
  rcases embedAll_mem_error embed chunks d e hd he with ⟨msg, hmsg⟩
  exact ⟨by simp [build_or_load_faiss, hmsg],
         ⟨msg, by simp [build_or_load_faiss, hmsg]⟩⟩

/-- C6 witness: a rebuild over ten chunks whose seventh chunk fails to
embed leaves the previously saved index unchanged on disk. -/
theorem build_failure_preserves_disk_w :
    (build_or_load_faiss 384 failingEmbed tenChunks true
      (some { dimTag := 384, entries := [exEntryA] })).2 =
      some { dimTag := 384, entries := [exEntryA] } :=
  (build_failure_preserves_disk 384 failingEmbed tenChunks
    (some { dimTag := 384, entries := [exEntryA] })
    { pageContent := "c7",
      metadata := { source := some "contracts/big.txt", page := none } }
    "boom" (by decide) rfl).1

/-- C7: round-trip persistence — loading the result of saving an index
succeeds and yields an index whose search results for any query and any
`k` are identical to the original's. -/
theorem index_roundtrip (dim : Nat) (idx : VIndex) (q : List Int)
    (k : Nat) :
    ∃ idx2, loadIndex (some (saveIndex dim idx)) dim = Except.ok idx2 ∧
      searchIndex idx2 q k = searchIndex idx q k ∧ idx2 = idx :=
  ⟨idx, by simp [loadIndex, saveIndex], rfl, rfl⟩

/-- Every chunk produced by the splitting loop has at most `cs`
characters. -/
theorem chunkListAux_length_le (fuel step cs : Nat) (l : List Char) :
    ∀ c ∈ chunkListAux fuel step cs l, c.length ≤ cs := by
  induction fuel generalizing l with
  | zero =>
    intro c hc
    simp [chunkListAux] at hc
  | succ n ih =>
    intro c hc
    cases l with
    | nil => simp [chunkListAux] at hc
    | cons x xs =>
      simp only [chunkListAux] at hc
      rcases List.mem_cons.mp hc with rfl | hmem
      · exact List.length_take_le cs (x :: xs)
      · exact ih _ c hmem

/-- C8: every chunk returned by the chunker has length at most
`chunkSize`, measured in characters. -/
theorem chunk_length_le (cs ov : Nat) (t : String) (chunks : List String)
    (h : splitText cs ov t = Except.ok chunks) (c : String)
    (hc : c ∈ chunks) : c.length ≤ cs := by
  unfold splitText at h
  by_cases hcond : 0 < cs ∧ 0 < ov ∧ ov < cs
  · rw [if_pos hcond] at h
    injection h with h
    subst h
    rcases List.mem_map.mp hc with ⟨l, hl, rfl⟩
    exact chunkListAux_length_le t.length (cs - ov) cs t.toList l hl
  · rw [if_neg hcond] at h
    simp at h

/-- C8 witness: splitting a seven-character document with `chunkSize = 3`
and `overlap = 1`; the final short chunk has length at most 3. -/
theorem chunk_length_le_w : ("g" : String).length ≤ 3 :=
  chunk_length_le 3 1 "abcdefg" ["abc", "cde", "efg", "g"] rfl "g"
    (by decide)

/-- C9: retrieval is deterministic — with a fixed index and a
deterministic embedder, a second invocation of retrieve with the same
query and `k` (even after the embedder's state advanced) returns the same
ordered result sequence as the first. -/
theorem retrieve_deterministic {σ : Type} (idx : VIndex)
    (emb : σ → String → List Int × σ) (h : DeterministicEmbedder emb)
    (s : σ) (q : String) (k : Nat) :
    (retrieveStateful idx emb
      ((retrieveStateful idx emb s q k).2) q k).1 =
      (retrieveStateful idx emb s q k).1 := by
  simp only [retrieveStateful]
  rw [h ((emb s q).2) s q]

/-- C9 witness: two successive retrievals through the counting embedder
over the concrete index agree. -/
theorem retrieve_deterministic_w :
    (retrieveStateful exIndex countingEmbedder
      ((retrieveStateful exIndex countingEmbedder 0
        "breach notification timeframe" 1).2)
      "breach notification timeframe" 1).1 =
      (retrieveStateful exIndex countingEmbedder 0
        "breach notification timeframe" 1).1 :=
  retrieve_deterministic exIndex countingEmbedder (fun _ _ _ => rfl) 0
    "breach notification timeframe" 1

end RAG

namespace SimpleRAG

/-- C10: when the contracts folder does not exist the loader returns the
empty map, and a file whose read raises is skipped while loading
continues with the remaining files — the loader itself is total and never
propagates a read exception. -/
theorem load_contracts_props :
    load_contracts_simple none = [] ∧
    ∀ (pre post : List FileEntry) (f : FileEntry) (e : String),
      f.content = Except.error e →
      load_contracts_simple (some (pre ++ f :: post)) =
        load_contracts_simple (some (pre ++ post)) := by
  constructor
  · rfl
  · intro pre post f e he
    simp [load_contracts_simple, List.filterMap_append, he]

/-- C10 witness: a folder whose middle file fails to read loads exactly
the other two files. -/
theorem load_contracts_props_w :
    load_contracts_simple (some
      [{ name := "a.txt", content := Except.ok "alpha" },
       { name := "b.txt", content := Except.error "denied" },
       { name := "c.txt", content := Except.ok "gamma" }]) =
    load_contracts_simple (some
      [{ name := "a.txt", content := Except.ok "alpha" },
       { name := "c.txt", content := Except.ok "gamma" }]) :=
  load_contracts_props.2
    [{ name := "a.txt", content := Except.ok "alpha" }]
    [{ name := "c.txt", content := Except.ok "gamma" }]
    { name := "b.txt", content := Except.error "denied" } "denied" rfl

end SimpleRAG
